import Mathlib

/-!
Verification of the camera health monitor (`Camera.py`).

The program periodically probes RTSP cameras, classifies each as
"online"/"offline", keeps a per-camera status dictionary plus a global
append-only change log numbered by a global counter, and emails an HTML
table of the full change history on every status transition.

Shallow embedding notes:
* Python `None` sentinels become `Option.none`.
* The wall-clock read window of one probe attempt is modelled by the
  environment supplying the finite list of reads that fit in the window;
  an attempt whose stream cannot be opened is `AttemptEnv.openFail`.
* Pixel intensities are rationals; `np.var` is the population variance.
* The SMTP transport is an environment value; `send_email_alert` wraps it
  in try/except exactly as the source does, so it always returns.
-/

namespace CameraApp

/-- Health status strings used by the program. The stored per-camera value
is an `Option Status`: `none` models the Python `None` sentinel that every
camera starts with. -/
inductive Status where
  | online
  | offline
deriving DecidableEq

/-- The string the program uses for each status. -/
def statusString : Status → String
  | .online => "online"
  | .offline => "offline"

/-- Mapping of the probe's boolean outcome to a status, as in
`check_camera`: `True` becomes `"online"`, `False` becomes `"offline"`. -/
def mapStatus (b : Bool) : Status :=
  if b then .online else .offline

/-- Constant `RETRIES = 3` from the configuration block. -/
def RETRIES : Nat := 3

/-- Constant `VARIANCE_THRESHOLD = 10.0` from the configuration block. -/
def VARIANCE_THRESHOLD : ℚ := 10

/-- A decoded frame: its numpy `size` and the result of
`cv2.cvtColor(frame, COLOR_BGR2GRAY)` — `none` when the conversion
raises, otherwise the grayscale intensities. A Python `None` frame is
`(none : Frame)`. -/
structure FrameData where
  size : Nat
  gray : Option (List ℚ)
deriving DecidableEq

/-- A possibly-`None` frame. -/
abbrev Frame := Option FrameData

/-- Function `np.var`: population variance of the intensity list. -/
def npVar (xs : List ℚ) : ℚ :=
  if xs.length = 0 then 0
  else ((xs.map (fun x => (x - xs.sum / xs.length) ^ 2)).sum) / xs.length

/-- Function `is_frame_valid` from the source: `None` or zero-size frames are
invalid; a failed grayscale conversion is invalid; otherwise the frame is
valid iff the intensity variance is at least `VARIANCE_THRESHOLD`. -/
def is_frame_valid (frame : Frame) : Bool :=
  match frame with
  | none => false
  | some f =>
      if f.size = 0 then false
      else
        match f.gray with
        | none => false
        | some g => decide (VARIANCE_THRESHOLD ≤ npVar g)

/-- One probe attempt as supplied by the environment: either the capture
could not be opened (`cv2.VideoCapture` raised or `isOpened` was false),
or it opened and the read window affords the given finite list of
`cap.read()` results `(ret, frame)`. -/
inductive AttemptEnv where
  | openFail
  | opened (reads : List (Bool × Frame))
deriving DecidableEq

/-- The inner `while` loop of `check_camera`: scan the reads of one
attempt and succeed on the first read with `ret` true and a valid frame. -/
def readLoop : List (Bool × Frame) → Bool
  | [] => false
  | (ret, f) :: rest => if ret && is_frame_valid f then true else readLoop rest

/-- Whether one attempt succeeds: an open failure never does; an opened
attempt succeeds iff its read window contains a valid frame. -/
def attemptOk : AttemptEnv → Bool
  | .openFail => false
  | .opened reads => readLoop reads

/-- The retry loop of `check_camera`, reduced to its boolean outcome:
succeed on the first successful attempt, fail once every attempt has
failed. -/
def probeAttempts : List AttemptEnv → Bool
  | [] => false
  | a :: rest => if attemptOk a then true else probeAttempts rest

/-- Number of `cap.read()` calls the inner loop performs on a given read
window (it stops at the first valid frame). -/
def readsConsumed : List (Bool × Frame) → Nat
  | [] => 0
  | (ret, f) :: rest => if ret && is_frame_valid f then 1 else 1 + readsConsumed rest

/-- Number of attempts the retry loop performs (it stops at the first
successful attempt). -/
def attemptsConsumed : List AttemptEnv → Nat
  | [] => 0
  | a :: rest => if attemptOk a then 1 else 1 + attemptsConsumed rest

/-- One row of the global `status_changes` log: the sequence number the
entry was stamped with, the camera name, the previous and new status
strings as passed to `log_status_change`, and the timestamp string. -/
structure Entry where
  sno : Nat
  camera : String
  prevStr : String
  newStr : String
  time : String
deriving DecidableEq

/-- The module-level mutable state of the program: the `camera_status`
dictionary (with the `None` sentinel as `none`), the `status_changes`
list and the `sno_counter`. -/
structure TrackerState where
  cameraStatus : String → Option Status
  statusChanges : List Entry
  snoCounter : Nat

/-- The initial module state: every camera maps to `None`,
`status_changes = []`, `sno_counter = 1`. -/
def initialState : TrackerState :=
  { cameraStatus := fun _ => none, statusChanges := [], snoCounter := 1 }

/-- The row colour chosen in `log_status_change`. -/
def statusColor (newStatus : String) : String :=
  if newStatus = "online" then "green" else "red"

/-- The `status_change_str` built in `log_status_change`:
previous and new status, each tagged with the timestamp. -/
def statusChangeStr (e : Entry) : String :=
  e.prevStr ++ " (" ++ e.time ++ ") → " ++ e.newStr ++ " (" ++ e.time ++ ")"

/-- The HTML `<tr>` row appended to `status_changes` for one entry. -/
def renderRow (e : Entry) : String :=
  "<tr><td>" ++ toString e.sno ++ "</td><td>" ++ e.camera ++ "</td><td>"
    ++ statusChangeStr e ++ "</td><td style=\"color:" ++ statusColor e.newStr
    ++ "; font-weight:bold;\">" ++ e.newStr ++ "</td></tr>"

/-- The fixed HTML opening of every alert body (head, style block, table
header row). -/
def tableHead : String :=
  "<html><head><style>table \x7b border-collapse: collapse; width: 90%; \x7d "
    ++ "th, td \x7b border: 1px solid black; padding: 8px; text-align: center; \x7d "
    ++ "th \x7b background-color: #f2f2f2; \x7d</style></head><body>"
    ++ "<h2>Camera Status Change Alert</h2><table>"
    ++ "<tr><th>S.No</th><th>Name (IP)</th><th>Status Change</th><th>Current Status</th></tr>"

/-- The fixed HTML suffix of every alert body. -/
def tableTail : String := "</table></body></html>"

/-- Python `''.join(status_changes)`: the concatenation of every rendered row. -/
def joinRows : List Entry → String
  | [] => ""
  | e :: rest => renderRow e ++ joinRows rest

/-- The full alert body built by `log_status_change` from the current
(post-append) `status_changes` list. -/
def buildBody (entries : List Entry) : String :=
  tableHead ++ joinRows entries ++ tableTail

/-- Outcome of one SMTP delivery as supplied by the environment. -/
inductive SendResult where
  | ok
  | transportError
deriving DecidableEq

/-- The raw smtplib transport: it raises (returns `Except.error`) on a
transport failure. -/
def transportSend (t : SendResult) : Except String Unit :=
  match t with
  | .ok => Except.ok ()
  | .transportError => Except.error "transport failure"

/-- Function `send_email_alert`: the whole SMTP interaction sits in a
`try/except Exception` block, so every transport error is caught and
logged. The function therefore always returns; it reports whether the
delivery succeeded. -/
def send_email_alert (t : SendResult) : Bool :=
  match transportSend t with
  | .ok _ => true
  | .error _ => false

/-- Result of one `log_status_change` call: the new module state, the
HTML body it handed to `send_email_alert`, and whether that delivery
succeeded. -/
structure LogOutcome where
  state : TrackerState
  body : String
  sent : Bool

/-- Function `log_status_change`: append a row stamped with the current
`sno_counter` to `status_changes`, increment the counter, rebuild the
full HTML table from the post-append list and send it. -/
def log_status_change (st : TrackerState) (cameraName prevS newS now : String)
    (t : SendResult) : LogOutcome :=
  let e : Entry :=
    { sno := st.snoCounter, camera := cameraName, prevStr := prevS,
      newStr := newS, time := now }
  let changes := st.statusChanges ++ [e]
  { state := { st with statusChanges := changes, snoCounter := st.snoCounter + 1 },
    body := buildBody changes,
    sent := send_email_alert t }

/-- The environment for one `check_camera` call: the attempts the retry
loop will see, the `datetime.now()` string, and the SMTP transport
outcome. -/
structure ProbeEnv where
  attempts : List AttemptEnv
  now : String
  transport : SendResult
deriving DecidableEq

/-- Result of one `check_camera` call: the new module state, the boolean
return value, and the alert deliveries performed (body and success flag
of each `send_email_alert` call). -/
structure CheckResult where
  state : TrackerState
  result : Bool
  dispatches : List (String × Bool)

/-- Dictionary update `camera_status[name] = s`. -/
def updateStatus (f : String → Option Status) (name : String) (s : Status) :
    String → Option Status :=
  fun n => if n = name then some s else f n

/-- The retry loop of `check_camera` together with the recording it does:
on the first successful attempt it records `"online"` (logging a change
iff the stored status differs, with the `prev_status or "offline"`
fallback) and returns `True`; once every attempt has failed it records
`"offline"` (with the `prev_status or "online"` fallback) and returns
`False`. -/
def check_attempts (st : TrackerState) (cameraName now : String) (t : SendResult) :
    List AttemptEnv → CheckResult
  | [] =>
      if st.cameraStatus cameraName = some Status.offline then
        { state := { st with cameraStatus := updateStatus st.cameraStatus cameraName Status.offline },
          result := false, dispatches := [] }
      else
        let lo := log_status_change st cameraName
          (statusString ((st.cameraStatus cameraName).getD Status.online)) "offline" now t
        { state := { lo.state with cameraStatus := updateStatus lo.state.cameraStatus cameraName Status.offline },
          result := false, dispatches := [(lo.body, lo.sent)] }
  | a :: rest =>
      if attemptOk a then
        if st.cameraStatus cameraName = some Status.online then
          { state := { st with cameraStatus := updateStatus st.cameraStatus cameraName Status.online },
            result := true, dispatches := [] }
        else
          let lo := log_status_change st cameraName
            (statusString ((st.cameraStatus cameraName).getD Status.offline)) "online" now t
          { state := { lo.state with cameraStatus := updateStatus lo.state.cameraStatus cameraName Status.online },
            result := true, dispatches := [(lo.body, lo.sent)] }
      else check_attempts st cameraName now t rest

/-- Function `check_camera`: run the retry loop over the attempts the environment
affords, recording the outcome as above. -/
def check_camera (st : TrackerState) (cameraName : String) (env : ProbeEnv) : CheckResult :=
  check_attempts st cameraName env.now env.transport env.attempts

/-- The recording step of `check_camera` as a function of the probe
outcome alone: map the outcome to a status, log a change iff it differs
from the stored status (the `None` sentinel is coerced by
`prev_status or …` to the opposite status string), and update the stored
status unconditionally. -/
def record (st : TrackerState) (cameraName : String) (outcome : Bool)
    (now : String) (t : SendResult) : CheckResult :=
  if outcome then
    if st.cameraStatus cameraName = some Status.online then
      { state := { st with cameraStatus := updateStatus st.cameraStatus cameraName Status.online },
        result := true, dispatches := [] }
    else
      let lo := log_status_change st cameraName
        (statusString ((st.cameraStatus cameraName).getD Status.offline)) "online" now t
      { state := { lo.state with cameraStatus := updateStatus lo.state.cameraStatus cameraName Status.online },
        result := true, dispatches := [(lo.body, lo.sent)] }
  else
    if st.cameraStatus cameraName = some Status.offline then
      { state := { st with cameraStatus := updateStatus st.cameraStatus cameraName Status.offline },
        result := false, dispatches := [] }
    else
      let lo := log_status_change st cameraName
        (statusString ((st.cameraStatus cameraName).getD Status.online)) "offline" now t
      { state := { lo.state with cameraStatus := updateStatus lo.state.cameraStatus cameraName Status.offline },
        result := false, dispatches := [(lo.body, lo.sent)] }

/-- The entry `record` appends when a change is logged. -/
def recordEntry (st : TrackerState) (cameraName : String) (outcome : Bool)
    (now : String) : Entry :=
  { sno := st.snoCounter, camera := cameraName,
    prevStr := statusString ((st.cameraStatus cameraName).getD (mapStatus !outcome)),
    newStr := statusString (mapStatus outcome), time := now }

/-- A sequence of check cycles, each probing one camera under one
environment (the scheduler's loop, flattened). -/
def runOps (st : TrackerState) : List (String × ProbeEnv) → TrackerState
  | [] => st
  | (c, e) :: rest => runOps (check_camera st c e).state rest

/-- A sequence of checks of a single camera under the given environments. -/
def runEnvs (st : TrackerState) (cameraName : String) : List ProbeEnv → TrackerState
  | [] => st
  | e :: rest => runEnvs (check_camera st cameraName e).state cameraName rest

/-- A frame whose grayscale intensities are `[0, 10]`, of variance `25`,
hence accepted by the validator. -/
def validFrame : Frame := some { size := 1, gray := some [0, 10] }

/-- Grayscale intensities whose population variance is exactly `10`, the
acceptance boundary. -/
def boundaryGray : List ℚ := [5, -5, 0, 0, 0]

/-- An environment whose single attempt immediately reads a valid frame. -/
def envOnline : ProbeEnv :=
  { attempts := [AttemptEnv.opened [(true, validFrame)]], now := "t",
    transport := SendResult.ok }

/-- An environment in which the stream never opens, on any of the three
attempts. -/
def envOffline : ProbeEnv :=
  { attempts := [AttemptEnv.openFail, AttemptEnv.openFail, AttemptEnv.openFail],
    now := "t", transport := SendResult.ok }

/-- The global numbering invariant: the logged sequence numbers are
exactly 1..n and the counter sits at n+1. -/
def seqInv (st : TrackerState) : Prop :=
  st.statusChanges.map Entry.sno = List.range' 1 st.statusChanges.length
  ∧ st.snoCounter = st.statusChanges.length + 1

/-- String `small` occurs contiguously inside `big`. -/
def containsStr (big small : String) : Prop :=
  ∃ s t : List Char, big.data = s ++ small.data ++ t

/-! ### Evaluation and structural lemmas -/

theorem validFrame_valid : is_frame_valid validFrame = true := by
  simp only [validFrame, is_frame_valid]
  norm_num [npVar, VARIANCE_THRESHOLD]

theorem probe_envOnline : probeAttempts envOnline.attempts = true := by
  simp [envOnline, probeAttempts, attemptOk, readLoop, validFrame_valid]

theorem probe_envOffline : probeAttempts envOffline.attempts = false := rfl

theorem check_attempts_eq_record (st : TrackerState) (cameraName now : String)
    (t : SendResult) :
    ∀ attempts : List AttemptEnv,
      check_attempts st cameraName now t attempts
        = record st cameraName (probeAttempts attempts) now t
  | [] => rfl
  | a :: rest => by
      cases h : attemptOk a
      · simp [check_attempts, probeAttempts, h,
          check_attempts_eq_record st cameraName now t rest]
      · simp [check_attempts, probeAttempts, h, record]

theorem check_camera_eq_record (st : TrackerState) (cam : String) (env : ProbeEnv) :
    check_camera st cam env
      = record st cam (probeAttempts env.attempts) env.now env.transport :=
  check_attempts_eq_record st cam env.now env.transport env.attempts

theorem record_result (st : TrackerState) (cam : String) (b : Bool) (now : String)
    (t : SendResult) : (record st cam b now t).result = b := by
  cases b <;> simp [record] <;> split <;> rfl

theorem record_status_self (st : TrackerState) (cam : String) (b : Bool) (now : String)
    (t : SendResult) :
    (record st cam b now t).state.cameraStatus cam = some (mapStatus b) := by
  cases b <;> simp [record, mapStatus] <;> split <;> simp [updateStatus, log_status_change]

theorem record_status_other (st : TrackerState) (cam : String) (b : Bool) (now : String)
    (t : SendResult) (c : String) (hc : c ≠ cam) :
    (record st cam b now t).state.cameraStatus c = st.cameraStatus c := by
  cases b <;> simp [record] <;> split <;> simp [updateStatus, log_status_change, hc]

theorem record_noevent (st : TrackerState) (cam : String) (b : Bool) (now : String)
    (t : SendResult) (h : st.cameraStatus cam = some (mapStatus b)) :
    (record st cam b now t).state.statusChanges = st.statusChanges
    ∧ (record st cam b now t).state.snoCounter = st.snoCounter
    ∧ (record st cam b now t).dispatches = [] := by
  cases b <;> simp [mapStatus] at h <;> simp [record, h]

theorem record_event (st : TrackerState) (cam : String) (b : Bool) (now : String)
    (t : SendResult) (h : st.cameraStatus cam ≠ some (mapStatus b)) :
    (record st cam b now t).state.statusChanges
      = st.statusChanges ++ [recordEntry st cam b now]
    ∧ (record st cam b now t).state.snoCounter = st.snoCounter + 1
    ∧ (record st cam b now t).dispatches
      = [(buildBody (st.statusChanges ++ [recordEntry st cam b now]),
          send_email_alert t)] := by
  cases b <;> simp [mapStatus] at h <;>
    simp [record, h, log_status_change, recordEntry, mapStatus, statusString]


theorem probeAttempts_eq_any : ∀ attempts : List AttemptEnv,
    probeAttempts attempts = attempts.any attemptOk
  | [] => rfl
  | a :: rest => by
      cases h : attemptOk a <;> simp [probeAttempts, h, probeAttempts_eq_any rest]

theorem readLoop_first_valid :
    ∀ (pre : List (Bool × Frame)) (r : Bool × Frame) (post : List (Bool × Frame)),
      (∀ x ∈ pre, (x.1 && is_frame_valid x.2) = false) →
      (r.1 && is_frame_valid r.2) = true →
      readLoop (pre ++ r :: post) = true
      ∧ readsConsumed (pre ++ r :: post) = pre.length + 1
  | [], r, post, _, hr => by
      refine ⟨?_, ?_⟩ <;> cases r with
      | mk ret f => simp [readLoop, readsConsumed, hr]
  | x :: pre, r, post, hpre, hr => by
      have hx := hpre x (by simp)
      have ih := readLoop_first_valid pre r post (fun y hy => hpre y (by simp [hy])) hr
      cases x with
      | mk ret f =>
          refine ⟨?_, ?_⟩
          · simpa [readLoop, hx] using ih.1
          · simp only [List.cons_append, readsConsumed, hx, Bool.false_eq_true, if_false,
              List.append_eq, List.length_cons]
            rw [ih.2]
            omega

theorem attempts_all_fail : ∀ attempts : List AttemptEnv,
    probeAttempts attempts = false →
    attemptsConsumed attempts = attempts.length ∧ ∀ a ∈ attempts, attemptOk a = false
  | [], _ => ⟨rfl, by simp⟩
  | a :: rest, h => by
      cases ha : attemptOk a
      · have h' : probeAttempts rest = false := by simpa [probeAttempts, ha] using h
        have ih := attempts_all_fail rest h'
        refine ⟨?_, ?_⟩
        · simp only [attemptsConsumed, ha, Bool.false_eq_true, if_false, List.length_cons]
          omega
        · intro b hb
          rcases List.mem_cons.mp hb with rfl | hb
          · exact ha
          · exact ih.2 b hb
      · simp [probeAttempts, ha] at h


/-- C3: the frame validator rejects a null frame and a zero-size frame,
rejects a frame whose grayscale conversion fails, and otherwise accepts a
frame iff its intensity variance is at least `VARIANCE_THRESHOLD`
(equality included). -/
theorem C3_frame_validator :
    is_frame_valid none = false
    ∧ (∀ f : FrameData, f.size = 0 → is_frame_valid (some f) = false)
    ∧ (∀ f : FrameData, f.gray = none → is_frame_valid (some f) = false)
    ∧ (∀ (f : FrameData) (g : List ℚ), f.size ≠ 0 → f.gray = some g →
        (is_frame_valid (some f) = true ↔ VARIANCE_THRESHOLD ≤ npVar g)) := by
  refine ⟨rfl, ?_, ?_, ?_⟩
  · intro f h
    simp [is_frame_valid, h]
  · intro f h
    simp only [is_frame_valid, h]
    split <;> rfl
  · intro f g h1 h2
    simp [is_frame_valid, h1, h2]

/-- Witness for C3 at the exact boundary: a frame whose variance is
exactly the threshold is accepted. -/
theorem C3_frame_validator_witness :
    is_frame_valid (some { size := 1, gray := some boundaryGray }) = true := by
  refine (C3_frame_validator.2.2.2 { size := 1, gray := some boundaryGray }
    boundaryGray (by decide) rfl).mpr ?_
  norm_num [boundaryGray, npVar, VARIANCE_THRESHOLD]

/-- C2: the probe succeeds iff some attempt's read window contains an
accepted frame; within an attempt the loop stops on the first valid
frame, not consuming the rest of the window; a `false` outcome happens
only once all `RETRIES` attempts have been performed and each has failed;
and an attempt that cannot open is handled exactly like an attempt whose
window has no valid frame. -/
theorem C2_probe_retry :
    (∀ attempts : List AttemptEnv,
        probeAttempts attempts = true ↔ ∃ a ∈ attempts, attemptOk a = true)
    ∧ (∀ (pre post : List (Bool × Frame)) (r : Bool × Frame),
        (∀ x ∈ pre, (x.1 && is_frame_valid x.2) = false) →
        (r.1 && is_frame_valid r.2) = true →
        readLoop (pre ++ r :: post) = true
        ∧ readsConsumed (pre ++ r :: post) = pre.length + 1)
    ∧ (∀ attempts : List AttemptEnv, attempts.length = RETRIES →
        probeAttempts attempts = false →
        attemptsConsumed attempts = RETRIES ∧ ∀ a ∈ attempts, attemptOk a = false)
    ∧ (∀ (reads : List (Bool × Frame)) (rest : List AttemptEnv),
        readLoop reads = false →
        probeAttempts (AttemptEnv.openFail :: rest)
          = probeAttempts (AttemptEnv.opened reads :: rest)) := by
  refine ⟨?_, ?_, ?_, ?_⟩
  · intro attempts
    rw [probeAttempts_eq_any, List.any_eq_true]
  · intro pre post r hpre hr
    exact readLoop_first_valid pre r post hpre hr
  · intro attempts hlen h
    have := attempts_all_fail attempts h
    exact ⟨by rw [this.1, hlen], this.2⟩
  · intro reads rest h
    simp [probeAttempts, attemptOk, h]

/-- Witness for C2: three open failures consume all three attempts; and a
window whose first read fails but whose second is valid stops after two
reads. -/
theorem C2_probe_retry_witness :
    attemptsConsumed [AttemptEnv.openFail, AttemptEnv.openFail, AttemptEnv.openFail]
      = RETRIES
    ∧ readsConsumed [(false, (none : Frame)), (true, validFrame), (true, validFrame)] = 2 := by
  constructor
  · exact (C2_probe_retry.2.2.1
      [AttemptEnv.openFail, AttemptEnv.openFail, AttemptEnv.openFail] rfl rfl).1
  · exact (C2_probe_retry.2.1 [(false, (none : Frame))] [(true, validFrame)]
      (true, validFrame) (by simp) (by simp [validFrame_valid])).2

/-- C1: recording maps the probe outcome `true`/`false` to
online/offline, always overwrites the stored per-camera status, appends a
history row (and dispatches an alert) iff the mapped status differs from
the stored one, and the pre-probe stored value is the `none` sentinel,
distinct from both mapped statuses, so a first outcome always logs a
change. -/
theorem C1_record_semantics :
    ∀ (st : TrackerState) (cam : String) (env : ProbeEnv),
      (check_camera st cam env).result = probeAttempts env.attempts
      ∧ (check_camera st cam env).state.cameraStatus cam
          = some (mapStatus (probeAttempts env.attempts))
      ∧ ((check_camera st cam env).dispatches.length = 1
           ↔ st.cameraStatus cam ≠ some (mapStatus (probeAttempts env.attempts)))
      ∧ (st.cameraStatus cam = some (mapStatus (probeAttempts env.attempts)) →
           (check_camera st cam env).state.statusChanges = st.statusChanges)
      ∧ (st.cameraStatus cam ≠ some (mapStatus (probeAttempts env.attempts)) →
           (check_camera st cam env).state.statusChanges
             = st.statusChanges
               ++ [recordEntry st cam (probeAttempts env.attempts) env.now])
      ∧ initialState.cameraStatus cam = none
      ∧ (∀ s : Status, initialState.cameraStatus cam ≠ some s) := by
  intro st cam env
  rw [check_camera_eq_record st cam env]
  by_cases hs : st.cameraStatus cam = some (mapStatus (probeAttempts env.attempts))
  · have hn := record_noevent st cam (probeAttempts env.attempts) env.now env.transport hs
    refine ⟨record_result .., record_status_self .., ?_, fun _ => hn.1,
      fun hcon => absurd hs hcon, rfl, fun s => by simp [initialState]⟩
    rw [hn.2.2]
    simp [hs]
  · have he := record_event st cam (probeAttempts env.attempts) env.now env.transport hs
    refine ⟨record_result .., record_status_self .., ?_, fun hcon => absurd hcon hs,
      fun _ => he.1, rfl, fun s => by simp [initialState]⟩
    rw [he.2.2]
    simp [hs]

/-- Witness for C1: a first successful probe of a fresh camera appends
exactly the expected row. -/
theorem C1_record_semantics_witness :
    (check_camera initialState "cam" envOnline).state.statusChanges
      = initialState.statusChanges
        ++ [recordEntry initialState "cam" (probeAttempts envOnline.attempts) envOnline.now] := by
  exact (C1_record_semantics initialState "cam" envOnline).2.2.2.2.1
    (by simp [initialState])


theorem seqInv_initial : seqInv initialState := ⟨rfl, rfl⟩

theorem seqInv_step (st : TrackerState) (c : String) (env : ProbeEnv) (h : seqInv st) :
    seqInv (check_camera st c env).state := by
  rw [check_camera_eq_record st c env]
  by_cases hs : st.cameraStatus c = some (mapStatus (probeAttempts env.attempts))
  · have hn := record_noevent st c (probeAttempts env.attempts) env.now env.transport hs
    exact ⟨by rw [hn.1]; exact h.1, by rw [hn.2.1, hn.1]; exact h.2⟩
  · have he := record_event st c (probeAttempts env.attempts) env.now env.transport hs
    constructor
    · rw [he.1]
      simp only [List.map_append, List.map_cons, List.map_nil, List.length_append,
        List.length_cons, List.length_nil, Nat.zero_add]
      rw [h.1]
      have hsno : (recordEntry st c (probeAttempts env.attempts) env.now).sno
          = st.snoCounter := rfl
      rw [hsno, h.2, List.range'_concat]
      simp [Nat.add_comm]
    · rw [he.2.1, he.1, h.2]
      simp

theorem runOps_seqInv : ∀ (ops : List (String × ProbeEnv)) (st : TrackerState),
    seqInv st → seqInv (runOps st ops)
  | [], _, h => h
  | (c, e) :: rest, st, h => runOps_seqInv rest _ (seqInv_step st c e h)

theorem chain'_succ_range' : ∀ (n s : Nat),
    List.Chain' (fun a b => b = a + 1) (List.range' s n)
  | 0, s => by simp
  | 1, s => by simp
  | n + 2, s => by
      rw [List.range'_succ, List.range'_succ]
      refine List.chain'_cons.mpr ⟨rfl, ?_⟩
      rw [← List.range'_succ]
      exact chain'_succ_range' (n + 1) (s + 1)

/-- C4: across any run from the initial state, history sequence numbers
are exactly 1..n — hence strictly increasing by 1 and globally unique
across all cameras — and every further check only appends to history. -/
theorem C4_sequence_numbers :
    ∀ ops : List (String × ProbeEnv),
      (runOps initialState ops).statusChanges.map Entry.sno
        = List.range' 1 (runOps initialState ops).statusChanges.length
      ∧ ((runOps initialState ops).statusChanges.map Entry.sno).Nodup
      ∧ List.Chain' (fun a b => b = a + 1)
          ((runOps initialState ops).statusChanges.map Entry.sno)
      ∧ ∀ (c : String) (env : ProbeEnv), ∃ tail,
          (check_camera (runOps initialState ops) c env).state.statusChanges
            = (runOps initialState ops).statusChanges ++ tail := by
  intro ops
  have h := runOps_seqInv ops initialState seqInv_initial
  refine ⟨h.1, ?_, ?_, ?_⟩
  · rw [h.1]
    exact List.nodup_range' _ _
  · rw [h.1]
    exact chain'_succ_range' _ _
  · intro c env
    rw [check_camera_eq_record]
    by_cases hs : (runOps initialState ops).cameraStatus c
        = some (mapStatus (probeAttempts env.attempts))
    · exact ⟨[], by
        rw [(record_noevent _ c _ env.now env.transport hs).1, List.append_nil]⟩
    · exact ⟨_, (record_event _ c _ env.now env.transport hs).1⟩

/-- C5 counterexample: on the very first successful probe of a fresh
camera the logged row's previous-state field is the string "offline"
(from the `prev_status or "offline"` fallback), not an Unknown sentinel,
refuting the claim that the first event's previous state is Unknown. -/
theorem C5_counterexample :
    (check_camera initialState "cam" envOnline).state.statusChanges.map Entry.prevStr
      = [statusString Status.offline] := by
  rw [check_camera_eq_record, probe_envOnline]
  rw [(record_event initialState "cam" true envOnline.now envOnline.transport
    (by simp [initialState])).1]
  simp [recordEntry, initialState, mapStatus]

/-- C5 amended: a first probe of a fresh camera that succeeds produces
exactly one history row, carrying sequence number 1, previous state
recorded as "offline" (the `None` sentinel coerced by
`prev_status or "offline"`), new state "online", with exactly one alert
dispatch, and the stored state becomes online. -/
theorem C5_first_probe :
    ∀ (cam : String) (env : ProbeEnv),
      probeAttempts env.attempts = true →
      (check_camera initialState cam env).state.statusChanges
        = [{ sno := 1, camera := cam, prevStr := statusString Status.offline,
             newStr := statusString Status.online, time := env.now }]
      ∧ (check_camera initialState cam env).dispatches.length = 1
      ∧ (check_camera initialState cam env).result = true
      ∧ (check_camera initialState cam env).state.cameraStatus cam
          = some Status.online := by
  intro cam env hb
  rw [check_camera_eq_record, hb]
  have hne : initialState.cameraStatus cam ≠ some (mapStatus true) := by
    simp [initialState]
  have he := record_event initialState cam true env.now env.transport hne
  refine ⟨?_, ?_, record_result .., ?_⟩
  · rw [he.1]
    simp [recordEntry, initialState, mapStatus]
  · rw [he.2.2]
    rfl
  · have hself := record_status_self initialState cam true env.now env.transport
    simpa [mapStatus] using hself

/-- Witness for C5 (amended): the concrete first probe under `envOnline`. -/
theorem C5_first_probe_witness :
    (check_camera initialState "cam" envOnline).result = true :=
  (C5_first_probe "cam" envOnline probe_envOnline).2.2.1

/-- C6 counterexample: the probe operation does mutate StatusTracker
state — after a first successful probe the stored status of the probed
camera differs from what it was before. -/
theorem C6_counterexample :
    (check_camera initialState "cam" envOnline).state.cameraStatus "cam"
      ≠ initialState.cameraStatus "cam" := by
  rw [check_camera_eq_record, probe_envOnline,
    record_status_self initialState "cam" true envOnline.now envOnline.transport]
  simp [initialState]

/-- C6 amended: `check_camera` is not tracker-free: it performs the
probe and then the recording step itself — it reads the stored status,
overwrites it with the mapped outcome, and appends to history on change. -/
theorem C6_probe_records :
    ∀ (st : TrackerState) (cam : String) (env : ProbeEnv),
      check_camera st cam env
        = record st cam (probeAttempts env.attempts) env.now env.transport
      ∧ (check_camera st cam env).state.cameraStatus cam
          = some (mapStatus (probeAttempts env.attempts)) := by
  intro st cam env
  refine ⟨check_camera_eq_record st cam env, ?_⟩
  rw [check_camera_eq_record st cam env]
  exact record_status_self ..

theorem check_preserves_some (st : TrackerState) (cam c : String) (env : ProbeEnv)
    (h : ∃ s, st.cameraStatus cam = some s) :
    ∃ s, (check_camera st c env).state.cameraStatus cam = some s := by
  rw [check_camera_eq_record st c env]
  by_cases hc : cam = c
  · subst hc
    exact ⟨_, record_status_self ..⟩
  · rw [record_status_other st c _ env.now env.transport cam hc]
    exact h

theorem runOps_preserves_some (cam : String) :
    ∀ (ops : List (String × ProbeEnv)) (st : TrackerState),
      (∃ s, st.cameraStatus cam = some s) →
      ∃ s, (runOps st ops).cameraStatus cam = some s
  | [], _, h => h
  | (c, e) :: rest, st, h =>
      runOps_preserves_some cam rest _ (check_preserves_some st cam c e h)

theorem runOps_probed (cam : String) :
    ∀ (ops : List (String × ProbeEnv)) (st : TrackerState),
      cam ∈ ops.map Prod.fst →
      ∃ s, (runOps st ops).cameraStatus cam = some s
  | [], _, h => by simp at h
  | (c, e) :: rest, st, h => by
      have h' : cam = c ∨ cam ∈ rest.map Prod.fst := by simpa using h
      rcases h' with rfl | hmem
      · exact runOps_preserves_some cam rest _
          ⟨_, by rw [check_camera_eq_record]; exact record_status_self ..⟩
      · exact runOps_probed cam rest _ hmem

/-- C7: the stored state of every camera starts as the `none` sentinel;
once a camera has been probed its stored state is some concrete status,
and under any further checks it remains a concrete status — the sentinel
is never re-entered. -/
theorem C7_unknown_initial_only :
    ∀ (cam : String) (ops : List (String × ProbeEnv)),
      initialState.cameraStatus cam = none
      ∧ (cam ∈ ops.map Prod.fst →
          ∃ s : Status, (runOps initialState ops).cameraStatus cam = some s)
      ∧ (∀ st : TrackerState, (∃ s : Status, st.cameraStatus cam = some s) →
          ∀ more : List (String × ProbeEnv),
            ∃ s : Status, (runOps st more).cameraStatus cam = some s) := by
  intro cam ops
  exact ⟨rfl, fun h => runOps_probed cam ops initialState h,
    fun st h more => runOps_preserves_some cam more st h⟩

/-- Witness for C7: after one probe of "cam" its stored state is a
concrete status. -/
theorem C7_unknown_initial_only_witness :
    ∃ s : Status, (runOps initialState [("cam", envOnline)]).cameraStatus "cam" = some s :=
  (C7_unknown_initial_only "cam" [("cam", envOnline)]).2.1 (by simp)


theorem record_state_transport (st : TrackerState) (cam : String) (b : Bool)
    (now : String) (t u : SendResult) :
    (record st cam b now t).state = (record st cam b now u).state
    ∧ (record st cam b now t).result = (record st cam b now u).result := by
  cases b <;> simp [record, log_status_change] <;> split <;> simp

/-- C8: a transport failure in the notification channel is caught inside
`send_email_alert` (which returns normally, reporting failure); the
check's state mutation and return value are identical to those of a
successful-send run, and on a transition the appended history row and
the stored status are exactly as computed. -/
theorem C8_transport_error_swallowed :
    ∀ (st : TrackerState) (cam : String) (a : List AttemptEnv) (now : String),
      send_email_alert SendResult.transportError = false
      ∧ (check_camera st cam ⟨a, now, SendResult.transportError⟩).state
          = (check_camera st cam ⟨a, now, SendResult.ok⟩).state
      ∧ (check_camera st cam ⟨a, now, SendResult.transportError⟩).result
          = (check_camera st cam ⟨a, now, SendResult.ok⟩).result
      ∧ (st.cameraStatus cam ≠ some (mapStatus (probeAttempts a)) →
          (check_camera st cam ⟨a, now, SendResult.transportError⟩).state.statusChanges
            = st.statusChanges ++ [recordEntry st cam (probeAttempts a) now]
          ∧ (check_camera st cam ⟨a, now, SendResult.transportError⟩).state.cameraStatus cam
            = some (mapStatus (probeAttempts a))) := by
  intro st cam a now
  rw [check_camera_eq_record st cam ⟨a, now, SendResult.transportError⟩,
    check_camera_eq_record st cam ⟨a, now, SendResult.ok⟩]
  refine ⟨rfl, (record_state_transport ..).1, (record_state_transport ..).2,
    fun h => ?_⟩
  exact ⟨(record_event st cam _ now SendResult.transportError h).1,
    record_status_self ..⟩

/-- Witness for C8: concrete failed-transport check of a fresh camera. -/
theorem C8_transport_error_swallowed_witness :
    (check_camera initialState "cam"
        ⟨envOffline.attempts, "t", SendResult.transportError⟩).state.cameraStatus "cam"
      = some (mapStatus (probeAttempts envOffline.attempts)) :=
  ((C8_transport_error_swallowed initialState "cam" envOffline.attempts "t").2.2.2
    (by simp [initialState])).2

theorem containsStr_self (s : String) : containsStr s s :=
  ⟨[], [], by simp⟩

theorem containsStr_left (b a x : String) (h : containsStr b a) :
    containsStr (x ++ b) a := by
  obtain ⟨s, t, hst⟩ := h
  exact ⟨x.data ++ s, t, by simp [String.data_append, hst]⟩

theorem containsStr_right (b a x : String) (h : containsStr b a) :
    containsStr (b ++ x) a := by
  obtain ⟨s, t, hst⟩ := h
  exact ⟨s, t ++ x.data, by simp [String.data_append, hst]⟩

theorem containsStr_trans (c b a : String) (h1 : containsStr b a)
    (h2 : containsStr c b) : containsStr c a := by
  obtain ⟨s1, t1, hd1⟩ := h1
  obtain ⟨s2, t2, hd2⟩ := h2
  exact ⟨s2 ++ s1, t1 ++ t2, by simp [hd2, hd1]⟩

theorem joinRows_contains : ∀ (l : List Entry) (e : Entry), e ∈ l →
    containsStr (joinRows l) (renderRow e)
  | [], e, h => by simp at h
  | x :: rest, e, h => by
      rcases List.mem_cons.mp h with rfl | hmem
      · exact containsStr_right _ _ _ (containsStr_self _)
      · exact containsStr_left _ _ _ (joinRows_contains rest e hmem)

theorem buildBody_contains (l : List Entry) (e : Entry) (h : e ∈ l) :
    containsStr (buildBody l) (renderRow e) := by
  unfold buildBody
  exact containsStr_right _ _ _ (containsStr_left _ _ _ (joinRows_contains l e h))

theorem renderRow_contains_sno (e : Entry) :
    containsStr (renderRow e) (toString e.sno) := by
  unfold renderRow
  exact containsStr_right _ _ _ (containsStr_right _ _ _ (containsStr_right _ _ _
    (containsStr_right _ _ _ (containsStr_right _ _ _ (containsStr_right _ _ _
    (containsStr_right _ _ _ (containsStr_right _ _ _ (containsStr_right _ _ _
    (containsStr_left _ _ _ (containsStr_self _))))))))))

theorem renderRow_contains_camera (e : Entry) :
    containsStr (renderRow e) e.camera := by
  unfold renderRow
  exact containsStr_right _ _ _ (containsStr_right _ _ _ (containsStr_right _ _ _
    (containsStr_right _ _ _ (containsStr_right _ _ _ (containsStr_right _ _ _
    (containsStr_right _ _ _ (containsStr_left _ _ _ (containsStr_self _))))))))

theorem renderRow_contains_change (e : Entry) :
    containsStr (renderRow e) (statusChangeStr e) := by
  unfold renderRow
  exact containsStr_right _ _ _ (containsStr_right _ _ _ (containsStr_right _ _ _
    (containsStr_right _ _ _ (containsStr_right _ _ _
    (containsStr_left _ _ _ (containsStr_self _))))))

/-- C9: whenever a check dispatches an alert, the alert body contains
the rendered row of every history entry up to and including the new one
— each row carrying its sequence number, camera identity and
previous→new status string. -/
theorem C9_alert_contains_history :
    ∀ (st : TrackerState) (cam : String) (env : ProbeEnv) (body : String) (sent : Bool),
      (check_camera st cam env).dispatches = [(body, sent)] →
      ∀ e ∈ (check_camera st cam env).state.statusChanges,
        containsStr body (renderRow e)
        ∧ containsStr body (toString e.sno)
        ∧ containsStr body e.camera
        ∧ containsStr body (statusChangeStr e) := by
  intro st cam env body sent hd e he
  rw [check_camera_eq_record st cam env] at hd he
  by_cases hs : st.cameraStatus cam = some (mapStatus (probeAttempts env.attempts))
  · rw [(record_noevent st cam _ env.now env.transport hs).2.2] at hd
    exact absurd hd (by simp)
  · have hev := record_event st cam (probeAttempts env.attempts) env.now env.transport hs
    rw [hev.2.2] at hd
    simp only [List.cons.injEq, Prod.mk.injEq, and_true] at hd
    obtain ⟨hb, -⟩ := hd
    rw [hev.1] at he
    rw [← hb]
    have hbig := buildBody_contains _ e he
    exact ⟨hbig, containsStr_trans _ _ _ (renderRow_contains_sno e) hbig,
      containsStr_trans _ _ _ (renderRow_contains_camera e) hbig,
      containsStr_trans _ _ _ (renderRow_contains_change e) hbig⟩

/-- Witness for C9: the first probe of a fresh camera that fails logs a
transition and the dispatched body contains the new row. -/
theorem C9_alert_contains_history_witness :
    containsStr (buildBody [recordEntry initialState "cam" false "t"])
      (renderRow (recordEntry initialState "cam" false "t")) := by
  have hne : initialState.cameraStatus "cam" ≠ some (mapStatus false) := by
    simp [initialState]
  have hev := record_event initialState "cam" false "t" SendResult.ok hne
  have hcc : check_camera initialState "cam" envOffline
      = record initialState "cam" false "t" SendResult.ok := by
    rw [check_camera_eq_record initialState "cam" envOffline]
    rfl
  have hd : (check_camera initialState "cam" envOffline).dispatches
      = [(buildBody [recordEntry initialState "cam" false "t"], true)] := by
    rw [hcc, hev.2.2]
    simp [send_email_alert, transportSend, initialState]
  have hm : recordEntry initialState "cam" false "t"
      ∈ (check_camera initialState "cam" envOffline).state.statusChanges := by
    rw [hcc, hev.1]
    simp
  exact (C9_alert_contains_history initialState "cam" envOffline _ true hd _ hm).1

theorem runEnvs_synced (cam : String) (b : Bool) :
    ∀ (envs : List ProbeEnv) (st : TrackerState),
      st.cameraStatus cam = some (mapStatus b) →
      (∀ e ∈ envs, probeAttempts e.attempts = b) →
      (runEnvs st cam envs).cameraStatus cam = some (mapStatus b)
      ∧ (runEnvs st cam envs).statusChanges = st.statusChanges
  | [], st, hs, _ => ⟨hs, rfl⟩
  | e :: rest, st, hs, hall => by
      have hb := hall e (by simp)
      have h1 : (check_camera st cam e).state.cameraStatus cam = some (mapStatus b) := by
        rw [check_camera_eq_record st cam e, hb]
        exact record_status_self ..
      have h2 : (check_camera st cam e).state.statusChanges = st.statusChanges := by
        rw [check_camera_eq_record st cam e, hb]
        exact (record_noevent st cam b e.now e.transport hs).1
      have ih := runEnvs_synced cam b rest (check_camera st cam e).state h1
        (fun x hx => hall x (by simp [hx]))
      refine ⟨ih.1, ?_⟩
      show (runEnvs (check_camera st cam e).state cam rest).statusChanges = st.statusChanges
      rw [ih.2, h2]

/-- C10: at least one and then arbitrarily many consecutive checks of
one camera that all produce the same outcome append exactly one history
row in total — the one logged by the first check — and after each of
them the stored state equals the mapped outcome. -/
theorem C10_idempotent :
    ∀ (st : TrackerState) (cam : String) (b : Bool) (envs : List ProbeEnv),
      (∀ e ∈ envs, probeAttempts e.attempts = b) →
      st.cameraStatus cam ≠ some (mapStatus b) →
      1 ≤ envs.length →
      (runEnvs st cam envs).statusChanges.length = st.statusChanges.length + 1
      ∧ (runEnvs st cam (envs.take 1)).statusChanges.length
          = st.statusChanges.length + 1
      ∧ (∀ k, 1 ≤ k → k ≤ envs.length →
          (runEnvs st cam (envs.take k)).cameraStatus cam = some (mapStatus b)
          ∧ (runEnvs st cam (envs.take k)).statusChanges.length
              = st.statusChanges.length + 1) := by
  intro st cam b envs hall hne hlen
  cases envs with
  | nil => simp at hlen
  | cons e rest =>
      have hb := hall e (by simp)
      have h1 : (check_camera st cam e).state.cameraStatus cam = some (mapStatus b) := by
        rw [check_camera_eq_record st cam e, hb]
        exact record_status_self ..
      have h2 : (check_camera st cam e).state.statusChanges
          = st.statusChanges ++ [recordEntry st cam b e.now] := by
        rw [check_camera_eq_record st cam e, hb]
        exact (record_event st cam b e.now e.transport hne).1
      have hsync : ∀ j,
          (runEnvs (check_camera st cam e).state cam (rest.take j)).cameraStatus cam
            = some (mapStatus b)
          ∧ (runEnvs (check_camera st cam e).state cam (rest.take j)).statusChanges
            = (check_camera st cam e).state.statusChanges :=
        fun j => runEnvs_synced cam b (rest.take j) _ h1
          (fun x hx => hall x (List.mem_cons_of_mem e (List.take_subset _ _ hx)))
      have hsyncAll : (runEnvs (check_camera st cam e).state cam rest).statusChanges
          = (check_camera st cam e).state.statusChanges :=
        (runEnvs_synced cam b rest _ h1
          (fun x hx => hall x (List.mem_cons_of_mem e hx))).2
      refine ⟨?_, ?_, ?_⟩
      · show (runEnvs (check_camera st cam e).state cam rest).statusChanges.length = _
        rw [hsyncAll, h2]
        simp
      · show ((check_camera st cam e).state).statusChanges.length = _
        rw [h2]
        simp
      · intro k hk1 hk2
        obtain ⟨j, rfl⟩ : ∃ j, k = j + 1 := ⟨k - 1, by omega⟩
        rw [List.take_succ_cons]
        constructor
        · show (runEnvs (check_camera st cam e).state cam (rest.take j)).cameraStatus cam = _
          exact (hsync j).1
        · show (runEnvs (check_camera st cam e).state cam (rest.take j)).statusChanges.length = _
          rw [(hsync j).2, h2]
          simp

/-- Witness for C10: three identical failing checks of a fresh camera
append exactly one history row. -/
theorem C10_idempotent_witness :
    (runEnvs initialState "cam" [envOffline, envOffline, envOffline]).statusChanges.length
      = initialState.statusChanges.length + 1 :=
  (C10_idempotent initialState "cam" false [envOffline, envOffline, envOffline]
    (by decide) (by simp [initialState]) (by simp)).1

end CameraApp
